import Mathlib

/-!
Verification of the device-state reconciliation and geospatial-evaluation engine
of the RF signal monitor web frontend (static/script.js).

The JavaScript source is shallowly embedded below.  JS objects used as keyed
maps (deviceStatus.active, deviceStatus.inactive, deviceMarkers) are modelled as
association lists with overwrite-on-insert semantics; millisecond timestamps are
Int; signal power is an optional rational; geographic coordinates used by the
geometry claims are real numbers.  Leaflet's CRS.Earth.distance (the library
function behind `latLng.distanceTo` and `map.distance`) is embedded as the
haversine formula over ℝ.
-/

namespace RFMon

/-! ### Keyed-object primitives

JS plain objects keyed by device id.  `mapInsert` models `obj[k] = v`
(overwriting any previous binding), `mapErase` models `delete obj[k]`,
`mapHasKey` models `k in obj` / truthiness of `obj[k]`. -/

/-- Model of a JS object used as a map from device id to a value. -/
def KeyedMap (α : Type) : Type := List (String × α)

/-- Model of `obj[k] = v`: the new binding replaces any previous one. -/
def mapInsert (m : KeyedMap α) (k : String) (v : α) : KeyedMap α :=
  (k, v) :: m.filter (fun p => !(p.1 = k))

/-- Model of `delete obj[k]`. -/
def mapErase (m : KeyedMap α) (k : String) : KeyedMap α :=
  m.filter (fun p => !(p.1 = k))

/-- Model of `k in obj` (key present). -/
def mapHasKey (m : KeyedMap α) (k : String) : Bool :=
  m.any (fun p => p.1 = k)

/-! ### Device snapshot records

One entry of `data.devices` in a WebSocket snapshot message, restricted to the
fields the claims are about.  `lastSeen` is `new Date(device.last_seen)` in
milliseconds since epoch; `power` is `device.power` (absent when the JS field is
undefined); `location` is the normalized `{lat, lng}` pair as rationals. -/
structure SnapDevice where
  id : String
  name : String
  type : String
  lastSeen : Int
  power : Option ℚ
  location : Option (ℚ × ℚ)
  whitelisted : Bool
  isActive : Bool
  deriving DecidableEq, Repr

/-- The `deviceStatus` global: `{ active: {}, inactive: {} }`. -/
structure DeviceStatus where
  active : KeyedMap SnapDevice
  inactive : KeyedMap SnapDevice

/-- `timeDiff < 30000` in ws.onmessage: seen strictly less than 30000 ms ago. -/
def isFresh (now : Int) (d : SnapDevice) : Bool :=
  now - d.lastSeen < 30000

/-- Lines 141-144 of ws.onmessage: every entry of `deviceStatus.active` is copied
into `deviceStatus.inactive` (overwriting) and removed from `active`. -/
def flushActive (st : DeviceStatus) : DeviceStatus :=
  { active := [],
    inactive := st.active.foldl (fun m p => mapInsert m p.1 p.2) st.inactive }

/-- Lines 147-162 of ws.onmessage, one device of the snapshot: a fresh device is
put in `active` and deleted from `inactive`; a stale one is put in `inactive`
(and, as in the source, not deleted from `active`). -/
def statusStep (now : Int) (st : DeviceStatus) (d : SnapDevice) : DeviceStatus :=
  if isFresh now d then
    { active := mapInsert st.active d.id d,
      inactive := mapErase st.inactive d.id }
  else
    { st with inactive := mapInsert st.inactive d.id d }

/-- The whole `deviceStatus` update of ws.onmessage for one snapshot message. -/
def processStatus (now : Int) (st : DeviceStatus) (devs : List SnapDevice) :
    DeviceStatus :=
  devs.foldl (statusStep now) (flushActive st)

/-- The `activeDeviceIds` set built while processing the snapshot. -/
def activeIds (now : Int) (devs : List SnapDevice) : List String :=
  (devs.filter (isFresh now)).map (fun d => d.id)

/-- Lines 165-167: `device.isActive = activeDeviceIds.has(device.id)`. -/
def wsIsActive (now : Int) (devs : List SnapDevice) (d : SnapDevice) : Bool :=
  (activeIds now devs).contains d.id

/-- Lines 274-279 of `processDeviceData`:
`diffSeconds = Math.floor((now - lastSeen) / 1000); isActive = diffSeconds <= 30`.
`Math.floor` of the exact quotient is floor division `Int.fdiv`. -/
def pdIsActive (now : Int) (d : SnapDevice) : Bool :=
  Int.fdiv (now - d.lastSeen) 1000 ≤ 30

/-! ### Map markers

`deviceMarkers` is a JS object keyed by device id; for presence claims only the
key set matters, so it is modelled as the list of ids carrying a marker. -/

/-- updateMarkers' coordinate validation (lines 637-642): latitude in [-90, 90]
and longitude in [-180, 180] (NaN is unrepresentable in ℚ). -/
def validCoords (p : ℚ × ℚ) : Bool :=
  -90 ≤ p.1 && p.1 ≤ 90 && -180 ≤ p.2 && p.2 ≤ 180

/-- `updateMarkers(devices)` restricted to marker presence: each device with a
valid location gets a marker created or updated (lines 611-657), then every
marker whose id is absent from `devices` is removed from the map and deleted
(lines 662-667). -/
def updateMarkers (markers : List String) (devs : List SnapDevice) : List String :=
  let added := devs.foldl
    (fun ms d =>
      match d.location with
      | some p => if validCoords p then (if d.id ∈ ms then ms else ms ++ [d.id]) else ms
      | none => ms)
    markers
  added.filter (fun id => devs.any (fun d => d.id = id))

/-! ### The ws.onmessage pipeline state -/

/-- The module-level mutable view state touched by ws.onmessage. -/
structure WsState where
  currentDevices : List SnapDevice
  status : DeviceStatus
  markers : List String

/-- One ws.onmessage device-snapshot cycle:
`currentDevices = data.devices || []` (wholesale replacement, line 124), the
`deviceStatus` update (lines 136-162), the `isActive` stamping (lines 165-167)
and `updateMarkers(currentDevices)` (lines 176-178; the second call at line 243
passes the same, already stamped, device objects). -/
def wsProcessSnapshot (now : Int) (st : WsState) (snapshot : List SnapDevice) :
    WsState :=
  let status := processStatus now st.status snapshot
  let devs := snapshot.map (fun d => { d with isActive := wsIsActive now snapshot d })
  { currentDevices := devs
    status := status
    markers := updateMarkers st.markers devs }

/-! ### Device list rendering (updateDeviceList, lines 991-1012 / 1344-1365;
the last definition of the function is the one in effect) -/

/-- JS `device.power || -100`: `undefined` and `0` are both falsy, so an absent
power and a power of exactly 0 dB are replaced by -100 in the comparator. -/
def effPower (d : SnapDevice) : ℚ :=
  match d.power with
  | some p => if p = 0 then -100 else p
  | none => -100

/-- The sort comparator of updateDeviceList as a boolean "a may come before b":
active devices first, then by descending `device.power || -100`. -/
def deviceLE (a b : SnapDevice) : Bool :=
  if a.isActive && !b.isActive then true
  else if !a.isActive && b.isActive then false
  else effPower b ≤ effPower a

/-- The comparator as a relation: the comparator result for `(a, b)` is `<= 0`,
so the sort may place `a` before `b`. -/
def deviceBefore (a b : SnapDevice) : Prop :=
  deviceLE a b = true

instance : DecidableRel deviceBefore :=
  fun a b => inferInstanceAs (Decidable (deviceLE a b = true))

instance : IsTotal SnapDevice deviceBefore where
  total a b := by
    unfold deviceBefore deviceLE
    cases ha : a.isActive <;> cases hb : b.isActive <;> simp_all <;>
      exact le_total (effPower b) (effPower a)

instance : IsTrans SnapDevice deviceBefore where
  trans a b c hab hbc := by
    unfold deviceBefore deviceLE at *
    cases ha : a.isActive <;> cases hb : b.isActive <;> cases hc : c.isActive <;>
      simp_all <;> exact le_trans hbc hab

/-- The rendered device list: the whitelist filter followed by the sort.
`Array.prototype.sort` is a stable sort consistent with the comparator; it is
modelled by the stable `List.insertionSort`. -/
def renderedList (showWhitelistedOnly : Bool) (devs : List SnapDevice) :
    List SnapDevice :=
  List.insertionSort deviceBefore
    (if showWhitelistedOnly then devs.filter (fun d => d.whitelisted) else devs)

/-! ### Whitelist add/remove -/

/-- Restamp the first record with the given id (JS `findIndex` + assignment). -/
def restampFirst (devs : List SnapDevice) (id : String)
    (f : SnapDevice → SnapDevice) : List SnapDevice :=
  match devs with
  | [] => []
  | d :: rest => if d.id = id then f d :: rest else d :: restampFirst rest id f

/-- The success branch of addToWhitelist (lines 1519-1543): after a 2xx response
the record at `findIndex(d => d.id === deviceId)` gets `whitelisted = true` and
the edited name and type, then the list and markers are re-rendered. -/
def addToWhitelistSuccess (devs : List SnapDevice) (id nm ty : String) :
    List SnapDevice :=
  restampFirst devs id (fun d => { d with whitelisted := true, name := nm, type := ty })

/-- Whether an HTTP status is a 2xx success (JS `response.ok`). -/
def responseOk (status : Nat) : Bool :=
  200 ≤ status && status < 300

/-- Modelled from the spec: the backend `DELETE /api/whitelist/device_id` handler
lives in app.py, which is not under src/.  api_documentation.md specifies a
success response when the id is in the whitelist and a 404 with detail
"Device ... not found in whitelist" otherwise.  The whitelist store is its key
set here. -/
def backendWhitelistRemove (wl : List String) (id : String) : Nat × List String :=
  if id ∈ wl then (200, wl.filter (fun k => !(k = id))) else (404, wl)

/-- Outcome of removeFromWhitelist as seen by the operator. -/
inductive RemoveOutcome where
  | success
  | errorAlert
  deriving DecidableEq, Repr

/-- removeFromWhitelist (lines 1562-1640): send the DELETE request; on
`response.ok` restamp the record and alert success, on any non-2xx response
alert a failure.  There is no special case for a 404. -/
def removeFromWhitelist (wl : List String) (id : String) :
    RemoveOutcome × List String :=
  let r := backendWhitelistRemove wl id
  (if responseOk r.1 then RemoveOutcome.success else RemoveOutcome.errorAlert, r.2)

/-! ### Geometry and geofence evaluation

The geometry claims require the actual great-circle distance, so coordinates are
real numbers here.  Device records are restricted to the fields the geofence
code touches; the computed `insideGeofence` flag is the proposition
`distance ≤ radius` (a boolean in JS, whose truth value is exactly this
proposition). -/

/-- A `{lat, lng}` coordinate pair in degrees. -/
structure RLatLng where
  lat : ℝ
  lng : ℝ

/-- Degrees-to-radians factor used by Leaflet. -/
noncomputable def degRad : ℝ := Real.pi / 180

/-- Earth mean radius used by Leaflet's `CRS.Earth.R`. -/
def earthRadius : ℝ := 6371000

/-- Leaflet's `CRS.Earth.distance` (the library function behind
`latLng.distanceTo` and `map.distance` called by script.js): the haversine
formula `2 R atan2(sqrt a, sqrt (1-a))` which, for `a` in `[0,1]`, equals
`2 R arcsin (sqrt a)`. -/
noncomputable def leafletDistance (p q : RLatLng) : ℝ :=
  let sinDLat := Real.sin ((q.lat - p.lat) * degRad / 2)
  let sinDLon := Real.sin ((q.lng - p.lng) * degRad / 2)
  let a := sinDLat * sinDLat +
    Real.cos (p.lat * degRad) * Real.cos (q.lat * degRad) * sinDLon * sinDLon
  2 * earthRadius * Real.arcsin (Real.sqrt a)

/-- The geofence circle: `geofenceCircle.getLatLng()` and `.getRadius()`. -/
structure GeofenceZone where
  center : RLatLng
  radius : ℝ

/-- A device record as seen by the geofence code. -/
structure GeoDevice where
  id : String
  location : Option RLatLng
  insideGeofence : Option Prop

/-- The body of checkDevicesAgainstGeofence for one device (lines 575-593): a
device with a location gets `insideGeofence = distance <= radius`; a device
without one is left untouched. -/
noncomputable def checkDevice (zone : GeofenceZone) (d : GeoDevice) : GeoDevice :=
  match d.location with
  | some loc =>
      { d with insideGeofence := some (leafletDistance loc zone.center ≤ zone.radius) }
  | none => d

/-- checkDevicesAgainstGeofence (lines 569-597): when no circle is set or the
geofence is disabled the function returns at once and changes nothing;
otherwise every device is re-evaluated against the zone. -/
noncomputable def checkDevicesAgainstGeofence (circle : Option GeofenceZone)
    (enabled : Bool) (devs : List GeoDevice) : List GeoDevice :=
  match circle, enabled with
  | some zone, true => devs.map (checkDevice zone)
  | _, _ => devs

/-- The geofence-related globals plus the tracked devices. -/
structure GeoState where
  circle : Option GeofenceZone
  enabled : Bool
  devices : List GeoDevice

/-- toggleGeofence (lines 547-560): no-op without a circle; otherwise flip
`geofenceEnabled`, add or remove the circle layer, and run
checkDevicesAgainstGeofence. -/
noncomputable def toggleGeofence (st : GeoState) : GeoState :=
  match st.circle with
  | none => st
  | some _ =>
      let e := !st.enabled
      { st with
          enabled := e
          devices := checkDevicesAgainstGeofence st.circle e st.devices }

/-- The geofence branch of processDeviceData (lines 290-303): when a circle is
set, `device.location.latitude` is read without checking that the device has a
location, so a record without one raises a TypeError that aborts the cycle. -/
noncomputable def pdGeofenceStep (circle : Option GeofenceZone) (d : GeoDevice) :
    Except String GeoDevice :=
  match circle with
  | none => Except.ok d
  | some zone =>
      match d.location with
      | none => Except.error "TypeError: device.location is undefined"
      | some loc =>
          Except.ok
            { d with insideGeofence := some (leafletDistance loc zone.center ≤ zone.radius) }

/-! ### Station fix handling (ws.onmessage, lines 218-234) -/

/-- The station-marker state: whether the map has been initialized and where the
user marker currently sits. -/
structure StationState where
  mapInit : Bool
  markerPos : Option RLatLng

/-- The monitoring-station branch of ws.onmessage when map and marker exist:
`userMarker.setLatLng([...])` moves the marker to the new fix FIRST, and only
then is `getDistance(userMarker.getLatLng(), [userLocation.lat, userLocation.lng])`
compared against 100 — so `newPos` below, the position `getLatLng()` returns, is
already the new fix.  The returned proposition is the `map.setView` re-center
condition. -/
noncomputable def stationUpdate (st : StationState) (fix : RLatLng) :
    StationState × Prop :=
  match st.markerPos with
  | none => (st, True)
  | some _ =>
      let newPos := fix
      ({ st with markerPos := some newPos },
        st.mapInit = false ∨ 100 < leafletDistance newPos fix)

/-! ### Predicates used to state the claims -/

/-- No id is a key of both `deviceStatus.active` and `deviceStatus.inactive`. -/
def statusDisjoint (st : DeviceStatus) : Prop :=
  ∀ k, mapHasKey st.active k = true → mapHasKey st.inactive k = false

/-- The claimed sort key: `-100` for an absent power, the stored power
otherwise (the claim's reading of `device.power || -100`). -/
def claimEffPower (d : SnapDevice) : ℚ :=
  match d.power with
  | some p => p
  | none => -100

/-- The ordering C9 claims for the rendered list: every active device before
every inactive one, and non-increasing power (absent read as -100) inside each
activity group. -/
def claimOrdered (l : List SnapDevice) : Prop :=
  l.Pairwise (fun a b =>
    (a.isActive = true ∧ b.isActive = false) ∨
    (a.isActive = b.isActive ∧ claimEffPower b ≤ claimEffPower a))

instance (l : List SnapDevice) : Decidable (claimOrdered l) := by
  unfold claimOrdered
  infer_instance

/-- Sample device records for concrete evaluations. -/
def devA : SnapDevice :=
  { id := "a", name := "", type := "GSM", lastSeen := 0, power := some (-40),
    location := some (1, 1), whitelisted := false, isActive := true }

def devStale : SnapDevice :=
  { id := "b", name := "", type := "WiFi", lastSeen := -100000, power := none,
    location := none, whitelisted := false, isActive := false }

def devP0 : SnapDevice :=
  { id := "p0", name := "", type := "LTE", lastSeen := 0, power := some 0,
    location := none, whitelisted := false, isActive := true }

def devPneg : SnapDevice :=
  { id := "pn", name := "", type := "LTE", lastSeen := 0, power := some (-50),
    location := none, whitelisted := false, isActive := true }

/-! ## Theorems -/

/-! ### Keyed-map lemmas -/

theorem mapHasKey_mapInsert_self (m : KeyedMap α) (k : String) (v : α) :
    mapHasKey (mapInsert m k v) k = true := by
  simp [mapHasKey, mapInsert]

theorem mapHasKey_mapInsert_ne (m : KeyedMap α) (k k' : String) (v : α)
    (h : k' ≠ k) : mapHasKey (mapInsert m k v) k' = mapHasKey m k' := by
  have hf : ∀ p : String × α,
      (!decide (p.1 = k) && decide (p.1 = k')) = decide (p.1 = k') := by
    intro p
    by_cases hp : p.1 = k'
    · simp [hp, h]
    · simp [hp]
  simp [mapHasKey, mapInsert, hf, Ne.symm h]

theorem mapHasKey_mapErase_self (m : KeyedMap α) (k : String) :
    mapHasKey (mapErase m k) k = false := by
  simp [mapHasKey, mapErase]

theorem mapHasKey_mapErase_ne (m : KeyedMap α) (k k' : String) (h : k' ≠ k) :
    mapHasKey (mapErase m k) k' = mapHasKey m k' := by
  have hf : ∀ p : String × α,
      (!decide (p.1 = k) && decide (p.1 = k')) = decide (p.1 = k') := by
    intro p
    by_cases hp : p.1 = k'
    · simp [hp, h]
    · simp [hp]
  simp [mapHasKey, mapErase, hf]

/-- Inserting never removes an existing key. -/
theorem mapHasKey_mapInsert_of_mapHasKey (m : KeyedMap α) (k k' : String) (v : α)
    (h : mapHasKey m k' = true) : mapHasKey (mapInsert m k v) k' = true := by
  by_cases hk : k' = k
  · subst hk; exact mapHasKey_mapInsert_self m k' v
  · rw [mapHasKey_mapInsert_ne m k k' v hk]; exact h

/-! ### C1: activity classification -/

/-- With pairwise distinct ids, membership of an id in `activeDeviceIds` is the
freshness of the corresponding record. -/
theorem wsIsActive_eq_isFresh (now : Int) (devs : List SnapDevice)
    (d : SnapDevice) (hd : d ∈ devs)
    (hids : (devs.map SnapDevice.id).Nodup) :
    wsIsActive now devs d = isFresh now d := by
  have key : d.id ∈ activeIds now devs ↔ isFresh now d = true := by
    unfold activeIds
    constructor
    · intro hc
      obtain ⟨e, he, heid⟩ := List.mem_map.mp hc
      obtain ⟨he', hef⟩ := List.mem_filter.mp he
      have : e = d := List.inj_on_of_nodup_map hids he' hd heid
      exact this ▸ hef
    · intro hf
      exact List.mem_map_of_mem _ (List.mem_filter.mpr ⟨hd, hf⟩)
  cases hf : isFresh now d
  · simp [wsIsActive, key, hf]
  · simp [wsIsActive, key, hf]

/-- `Math.floor((now - t)/1000) <= 30` is `now - t < 31000` on integers. -/
theorem pdIsActive_eq_lt_31000 (now : Int) (d : SnapDevice) :
    pdIsActive now d = decide (now - d.lastSeen < 31000) := by
  have h : (Int.fdiv (now - d.lastSeen) 1000 ≤ 30) ↔ now - d.lastSeen < 31000 := by
    rw [Int.fdiv_eq_ediv _ (by norm_num)]
    omega
  unfold pdIsActive
  exact decide_eq_decide.mpr h

/-- C1 counterexample: `processDeviceData` (lines 271-288, one of the claim's
two snapshot-processing sources) marks a record seen 30500 ms ago active even
though `now - t < 30000` fails there, so the claimed equality does not hold for
every snapshot-processing pass. -/
theorem C1_counterexample :
    pdIsActive 30500 devA = true ∧
    decide ((30500 : Int) - devA.lastSeen < 30000) = false := by
  constructor
  · decide
  · decide

/-- C1 amended: in the WebSocket snapshot handler every processed record's
`isActive` equals `now - lastSeen < 30000` (for snapshots with pairwise
distinct ids), and this is stable under re-evaluation at any later `now`
because it is a pure function of `now` and `lastSeen`; `processDeviceData`,
however, computes `isActive == (now - lastSeen < 31000)` via its
floored-seconds comparison `Math.floor((now-t)/1000) <= 30`. -/
theorem C1_amended_activity (now : Int) (st : WsState) (snapshot : List SnapDevice)
    (hids : (snapshot.map SnapDevice.id).Nodup) :
    (∀ d ∈ (wsProcessSnapshot now st snapshot).currentDevices,
        d.isActive = decide (now - d.lastSeen < 30000)) ∧
    (∀ (m : Int) (e : SnapDevice), pdIsActive m e = decide (m - e.lastSeen < 31000)) := by
  constructor
  · intro d hd
    simp only [wsProcessSnapshot, List.mem_map] at hd
    obtain ⟨e, he, rfl⟩ := hd
    simpa [isFresh] using wsIsActive_eq_isFresh now snapshot e he hids
  · intro m e
    exact pdIsActive_eq_lt_31000 m e

/-- Concrete instantiation of `C1_amended_activity`. -/
theorem C1_amended_activity_witness :
    (∀ d ∈ (wsProcessSnapshot 1000 ⟨[], ⟨[], []⟩, []⟩ [devA, devStale]).currentDevices,
        d.isActive = decide ((1000 : Int) - d.lastSeen < 30000)) ∧
    (∀ (m : Int) (e : SnapDevice), pdIsActive m e = decide (m - e.lastSeen < 31000)) :=
  C1_amended_activity 1000 ⟨[], ⟨[], []⟩, []⟩ [devA, devStale] (by decide)

/-! ### C10: active/inactive disjointness -/

theorem statusStep_fresh (now : Int) (st : DeviceStatus) (d : SnapDevice)
    (hf : isFresh now d = true) :
    statusStep now st d =
      { active := mapInsert st.active d.id d,
        inactive := mapErase st.inactive d.id } := by
  unfold statusStep
  rw [if_pos hf]

theorem statusStep_stale (now : Int) (st : DeviceStatus) (d : SnapDevice)
    (hf : isFresh now d = false) :
    statusStep now st d = { st with inactive := mapInsert st.inactive d.id d } := by
  unfold statusStep
  rw [if_neg (by simp [hf])]

/-- The fold of `statusStep` only touches the keys of the devices it processes. -/
theorem foldl_statusStep_untouched (now : Int) :
    ∀ (l : List SnapDevice) (st : DeviceStatus) (k : String),
      k ∉ l.map SnapDevice.id →
      mapHasKey (l.foldl (statusStep now) st).active k = mapHasKey st.active k ∧
      mapHasKey (l.foldl (statusStep now) st).inactive k = mapHasKey st.inactive k := by
  intro l
  induction l with
  | nil => intro st k _; exact ⟨rfl, rfl⟩
  | cons d rest ih =>
    intro st k hk
    simp only [List.map_cons, List.mem_cons, not_or] at hk
    obtain ⟨hkd, hkrest⟩ := hk
    have hstep :
        mapHasKey (statusStep now st d).active k = mapHasKey st.active k ∧
        mapHasKey (statusStep now st d).inactive k = mapHasKey st.inactive k := by
      cases hf : isFresh now d
      · rw [statusStep_stale now st d hf]
        exact ⟨rfl, mapHasKey_mapInsert_ne _ _ _ _ hkd⟩
      · rw [statusStep_fresh now st d hf]
        exact ⟨mapHasKey_mapInsert_ne _ _ _ _ hkd, mapHasKey_mapErase_ne _ _ _ hkd⟩
    have := ih (statusStep now st d) k hkrest
    simp only [List.foldl_cons]
    exact ⟨this.1.trans hstep.1, this.2.trans hstep.2⟩

/-- Invariant of the snapshot device loop: starting from a disjoint state whose
active keys avoid all remaining snapshot ids, the final state is disjoint and
every processed device sits in exactly one of the two maps. -/
theorem foldl_statusStep_invariant (now : Int) :
    ∀ (l : List SnapDevice) (st : DeviceStatus),
      statusDisjoint st →
      (∀ k, mapHasKey st.active k = true → k ∉ l.map SnapDevice.id) →
      (l.map SnapDevice.id).Nodup →
      statusDisjoint (l.foldl (statusStep now) st) ∧
      ∀ d ∈ l,
        (mapHasKey (l.foldl (statusStep now) st).active d.id ^^
         mapHasKey (l.foldl (statusStep now) st).inactive d.id) = true := by
  intro l
  induction l with
  | nil =>
    intro st hdisj _ _
    exact ⟨hdisj, by intro d hd; cases hd⟩
  | cons d rest ih =>
    intro st hdisj havoid hnodup
    simp only [List.map_cons, List.nodup_cons] at hnodup
    obtain ⟨hdid, hnodup'⟩ := hnodup
    have hactive_d : mapHasKey st.active d.id = false := by
      cases h : mapHasKey st.active d.id
      · rfl
      · exact absurd (havoid d.id h) (by simp)
    have hdisj' : statusDisjoint (statusStep now st d) := by
      intro k hk
      cases hf : isFresh now d
      · rw [statusStep_stale now st d hf] at hk ⊢
        by_cases hkd : k = d.id
        · subst hkd; rw [hactive_d] at hk; cases hk
        · rw [mapHasKey_mapInsert_ne _ _ _ _ hkd]
          exact hdisj k hk
      · rw [statusStep_fresh now st d hf] at hk ⊢
        by_cases hkd : k = d.id
        · subst hkd; exact mapHasKey_mapErase_self _ _
        · rw [mapHasKey_mapInsert_ne _ _ _ _ hkd] at hk
          rw [mapHasKey_mapErase_ne _ _ _ hkd]
          exact hdisj k hk
    have havoid' : ∀ k, mapHasKey (statusStep now st d).active k = true →
        k ∉ rest.map SnapDevice.id := by
      intro k hk
      cases hf : isFresh now d
      · rw [statusStep_stale now st d hf] at hk
        have := havoid k hk
        simp only [List.map_cons, List.mem_cons, not_or] at this
        exact this.2
      · rw [statusStep_fresh now st d hf] at hk
        by_cases hkd : k = d.id
        · subst hkd; exact hdid
        · rw [mapHasKey_mapInsert_ne _ _ _ _ hkd] at hk
          have := havoid k hk
          simp only [List.map_cons, List.mem_cons, not_or] at this
          exact this.2
    obtain ⟨hdisjF, hrest⟩ := ih (statusStep now st d) hdisj' havoid' hnodup'
    refine ⟨by simpa only [List.foldl_cons] using hdisjF, ?_⟩
    intro e he
    rcases List.mem_cons.mp he with rfl | he'
    · have huntouched := foldl_statusStep_untouched now rest (statusStep now st e) e.id hdid
      simp only [List.foldl_cons]
      rw [huntouched.1, huntouched.2]
      cases hf : isFresh now e
      · rw [statusStep_stale now st e hf]
        show (mapHasKey st.active e.id ^^ mapHasKey (mapInsert st.inactive e.id e) e.id) = true
        rw [hactive_d, mapHasKey_mapInsert_self]
        rfl
      · rw [statusStep_fresh now st e hf]
        show (mapHasKey (mapInsert st.active e.id e) e.id ^^
          mapHasKey (mapErase st.inactive e.id) e.id) = true
        rw [mapHasKey_mapInsert_self, mapHasKey_mapErase_self]
        rfl
    · simpa only [List.foldl_cons] using hrest e he'

/-- C10: after a WebSocket snapshot with pairwise distinct ids is processed, no
id is a key of both `deviceStatus.active` and `deviceStatus.inactive`, and
every id of the snapshot is a key of exactly one of the two maps (whatever the
previous state was, since the handler first empties `active`). -/
theorem C10_status_partition (now : Int) (st : WsState) (snapshot : List SnapDevice)
    (hids : (snapshot.map SnapDevice.id).Nodup) :
    statusDisjoint (wsProcessSnapshot now st snapshot).status ∧
    ∀ d ∈ snapshot,
      (mapHasKey (wsProcessSnapshot now st snapshot).status.active d.id ^^
       mapHasKey (wsProcessSnapshot now st snapshot).status.inactive d.id) = true := by
  have hflush : statusDisjoint (flushActive st.status) := by
    intro k hk
    simp [flushActive, mapHasKey] at hk
  have havoid : ∀ k, mapHasKey (flushActive st.status).active k = true →
      k ∉ snapshot.map SnapDevice.id := by
    intro k hk
    simp [flushActive, mapHasKey] at hk
  exact foldl_statusStep_invariant now snapshot (flushActive st.status) hflush havoid hids

/-- Concrete instantiation of `C10_status_partition`: a fresh and a stale device
land in `active` and `inactive` respectively, never in both. -/
theorem C10_status_partition_witness :
    (mapHasKey (wsProcessSnapshot 1000 ⟨[], ⟨[("a", devA)], [("b", devStale)]⟩, []⟩
        [devA, devStale]).status.active devA.id ^^
     mapHasKey (wsProcessSnapshot 1000 ⟨[], ⟨[("a", devA)], [("b", devStale)]⟩, []⟩
        [devA, devStale]).status.inactive devA.id) = true :=
  (C10_status_partition 1000 ⟨[], ⟨[("a", devA)], [("b", devStale)]⟩, []⟩
      [devA, devStale] (by decide)).2 devA (by decide)

/-! ### C2: persistence of records, view list and markers -/

theorem foldl_mapInsert_hasKey (l : List (String × SnapDevice))
    (m0 : KeyedMap SnapDevice) (k : String)
    (h : mapHasKey m0 k = true ∨ ∃ p ∈ l, p.1 = k) :
    mapHasKey (l.foldl (fun m p => mapInsert m p.1 p.2) m0) k = true := by
  induction l generalizing m0 with
  | nil =>
    rcases h with h | ⟨p, hp, _⟩
    · exact h
    · cases hp
  | cons p rest ih =>
    simp only [List.foldl_cons]
    rcases h with h | ⟨q, hq, hqk⟩
    · exact ih _ (Or.inl (mapHasKey_mapInsert_of_mapHasKey _ _ _ _ h))
    · rcases List.mem_cons.mp hq with rfl | hq'
      · exact ih _ (Or.inl (hqk ▸ mapHasKey_mapInsert_self _ _ _))
      · exact ih _ (Or.inr ⟨q, hq', hqk⟩)

/-- Being tracked (a key of either status map) survives the flush that starts
every snapshot cycle. -/
theorem flushActive_retains (st : DeviceStatus) (k : String)
    (h : mapHasKey st.active k = true ∨ mapHasKey st.inactive k = true) :
    mapHasKey (flushActive st).inactive k = true := by
  unfold flushActive
  rcases h with h | h
  · refine foldl_mapInsert_hasKey _ _ _ (Or.inr ?_)
    simpa [mapHasKey] using h
  · exact foldl_mapInsert_hasKey _ _ _ (Or.inl h)

/-- Being tracked survives every device of the snapshot loop. -/
theorem foldl_statusStep_retains (now : Int) :
    ∀ (l : List SnapDevice) (st : DeviceStatus) (k : String),
      (mapHasKey st.active k = true ∨ mapHasKey st.inactive k = true) →
      (mapHasKey (l.foldl (statusStep now) st).active k = true ∨
       mapHasKey (l.foldl (statusStep now) st).inactive k = true) := by
  intro l
  induction l with
  | nil => intro st k h; exact h
  | cons d rest ih =>
    intro st k h
    simp only [List.foldl_cons]
    refine ih (statusStep now st d) k ?_
    cases hf : isFresh now d
    · rw [statusStep_stale now st d hf]
      rcases h with h | h
      · exact Or.inl h
      · exact Or.inr (mapHasKey_mapInsert_of_mapHasKey _ _ _ _ h)
    · rw [statusStep_fresh now st d hf]
      by_cases hkd : k = d.id
      · subst hkd; exact Or.inl (mapHasKey_mapInsert_self _ _ _)
      · rcases h with h | h
        · exact Or.inl (by rw [mapHasKey_mapInsert_ne _ _ _ _ hkd]; exact h)
        · exact Or.inr (by rw [mapHasKey_mapErase_ne _ _ _ hkd]; exact h)

/-- C2 counterexample: after a snapshot that omits the known id "a" is
processed, the record is gone from `currentDevices` (the view list is replaced
wholesale) and updateMarkers has removed its map marker, contrary to the
claimed persistence. -/
theorem C2_counterexample :
    (wsProcessSnapshot 0 ⟨[devA], ⟨[("a", devA)], []⟩, ["a"]⟩ []).currentDevices = [] ∧
    (wsProcessSnapshot 0 ⟨[devA], ⟨[("a", devA)], []⟩, ["a"]⟩ []).markers = [] := by
  constructor
  · rfl
  · rfl

/-- C2 amended: once tracked, an id stays a key of the `deviceStatus` maps
across every subsequent snapshot (an omitted id simply ages into `inactive`);
however `currentDevices` is replaced wholesale by each snapshot, and every
marker whose id the snapshot omits is removed from the map, so an omitted
device does leave the view and loses its marker. -/
theorem C2_amended_persistence (now : Int) (st : WsState)
    (snapshot : List SnapDevice) (k : String)
    (h : mapHasKey st.status.active k = true ∨ mapHasKey st.status.inactive k = true) :
    (mapHasKey (wsProcessSnapshot now st snapshot).status.active k = true ∨
     mapHasKey (wsProcessSnapshot now st snapshot).status.inactive k = true) ∧
    (wsProcessSnapshot now st snapshot).currentDevices =
      snapshot.map (fun d => { d with isActive := wsIsActive now snapshot d }) ∧
    (∀ id, id ∉ snapshot.map SnapDevice.id →
      id ∉ (wsProcessSnapshot now st snapshot).markers) := by
  refine ⟨?_, rfl, ?_⟩
  · exact foldl_statusStep_retains now snapshot (flushActive st.status) k
      (Or.inr (flushActive_retains st.status k h))
  · intro id hid hmem
    simp only [wsProcessSnapshot, updateMarkers, List.mem_filter] at hmem
    obtain ⟨-, hany⟩ := hmem
    rw [List.any_eq_true] at hany
    obtain ⟨d, hd, hdk⟩ := hany
    obtain ⟨e, he, rfl⟩ := List.mem_map.mp hd
    exact hid (List.mem_map.mpr ⟨e, he, by simpa using hdk⟩)

/-- Concrete instantiation of `C2_amended_persistence`: the omitted id "a" is
still tracked in the status maps after an empty snapshot. -/
theorem C2_amended_persistence_witness :
    (mapHasKey (wsProcessSnapshot 0 ⟨[devA], ⟨[("a", devA)], []⟩, ["a"]⟩ []).status.active "a"
        = true ∨
     mapHasKey (wsProcessSnapshot 0 ⟨[devA], ⟨[("a", devA)], []⟩, ["a"]⟩ []).status.inactive "a"
        = true) ∧
    (wsProcessSnapshot 0 ⟨[devA], ⟨[("a", devA)], []⟩, ["a"]⟩ []).currentDevices =
      ([] : List SnapDevice).map (fun d => { d with isActive := wsIsActive 0 [] d }) ∧
    (∀ id, id ∉ ([] : List SnapDevice).map SnapDevice.id →
      id ∉ (wsProcessSnapshot 0 ⟨[devA], ⟨[("a", devA)], []⟩, ["a"]⟩ []).markers) :=
  C2_amended_persistence 0 ⟨[devA], ⟨[("a", devA)], []⟩, ["a"]⟩ [] "a" (Or.inl (by decide))

/-! ### C5: whitelist removal of an absent id -/

/-- C5 counterexample: removing an id that was never added yields a 404 from
the store, which removeFromWhitelist surfaces as an error alert to the
operator, not as a success. -/
theorem C5_counterexample :
    removeFromWhitelist [] "a" = (RemoveOutcome.errorAlert, []) := by
  decide

/-- C5 amended: a whitelist remove for an id not in the store returns 404,
which the frontend reports as an error alert (the whitelist is unchanged);
only a 2xx response is treated as success, so the delete is not idempotent
from the operator's point of view. -/
theorem C5_amended_remove_absent (wl : List String) (id : String) (h : id ∉ wl) :
    removeFromWhitelist wl id = (RemoveOutcome.errorAlert, wl) := by
  simp [removeFromWhitelist, backendWhitelistRemove, responseOk, h]

/-- Concrete instantiation of `C5_amended_remove_absent`. -/
theorem C5_amended_remove_absent_witness :
    removeFromWhitelist ["b"] "a" = (RemoveOutcome.errorAlert, ["b"]) :=
  C5_amended_remove_absent ["b"] "a" (by decide)

/-! ### C8: read-after-write consistency of the whitelisted flag -/

/-- Every record of a restamped list is an original record or the image of an
original record with the target id. -/
theorem mem_restampFirst (devs : List SnapDevice) (id : String)
    (f : SnapDevice → SnapDevice) :
    ∀ d' ∈ restampFirst devs id f, d' ∈ devs ∨ ∃ d ∈ devs, d.id = id ∧ d' = f d := by
  induction devs with
  | nil => intro d' hd'; cases hd'
  | cons d rest ih =>
    intro d' hd'
    unfold restampFirst at hd'
    by_cases hid : d.id = id
    · rw [if_pos hid] at hd'
      rcases List.mem_cons.mp hd' with rfl | hmem
      · exact Or.inr ⟨d, List.mem_cons_self d rest, hid, rfl⟩
      · exact Or.inl (List.mem_cons_of_mem d hmem)
    · rw [if_neg hid] at hd'
      rcases List.mem_cons.mp hd' with rfl | hmem
      · exact Or.inl (List.mem_cons_self d' rest)
      · rcases ih d' hmem with h | ⟨e, he, hei, hde⟩
        · exact Or.inl (List.mem_cons_of_mem d h)
        · exact Or.inr ⟨e, List.mem_cons_of_mem d he, hei, hde⟩

/-- When some record matches, its image under the restamp is in the result. -/
theorem restampFirst_mem_image (devs : List SnapDevice) (id : String)
    (f : SnapDevice → SnapDevice) (h : ∃ d ∈ devs, d.id = id) :
    ∃ d ∈ devs, d.id = id ∧ f d ∈ restampFirst devs id f := by
  induction devs with
  | nil => obtain ⟨d, hd, _⟩ := h; cases hd
  | cons d rest ih =>
    unfold restampFirst
    by_cases hid : d.id = id
    · rw [if_pos hid]
      exact ⟨d, List.mem_cons_self d rest, hid, List.mem_cons_self _ _⟩
    · rw [if_neg hid]
      obtain ⟨e, he, hei⟩ := h
      rcases List.mem_cons.mp he with rfl | he'
      · exact absurd hei hid
      · obtain ⟨e', he', hei', hmem⟩ := ih ⟨e, he', hei⟩
        exact ⟨e', List.mem_cons_of_mem d he', hei', List.mem_cons_of_mem d hmem⟩

/-- With pairwise distinct ids, every record of the restamped list that carries
the target id is the image of the (unique) matching original record. -/
theorem restampFirst_stamped (devs : List SnapDevice) (id : String)
    (f : SnapDevice → SnapDevice)
    (hnodup : (devs.map SnapDevice.id).Nodup) :
    ∀ d' ∈ restampFirst devs id f, d'.id = id → ∃ d ∈ devs, d.id = id ∧ d' = f d := by
  induction devs with
  | nil => intro d' hd'; cases hd'
  | cons d rest ih =>
    intro d' hd' hid'
    simp only [List.map_cons, List.nodup_cons] at hnodup
    obtain ⟨hdid, hnodup'⟩ := hnodup
    unfold restampFirst at hd'
    by_cases hid : d.id = id
    · rw [if_pos hid] at hd'
      rcases List.mem_cons.mp hd' with rfl | hmem
      · exact ⟨d, List.mem_cons_self d rest, hid, rfl⟩
      · exact absurd (List.mem_map_of_mem SnapDevice.id hmem)
          (by rw [hid'] at *; exact hid ▸ hdid)
    · rw [if_neg hid] at hd'
      rcases List.mem_cons.mp hd' with rfl | hmem
      · exact absurd hid' hid
      · obtain ⟨e, he, hei, hde⟩ := ih hnodup' d' hmem hid'
        exact ⟨e, List.mem_cons_of_mem d he, hei, hde⟩

/-- C8: after the success branch of addToWhitelist, every record carrying the
added id has `whitelisted = true`, such a record is present, and the rendered
view emitted in the same cycle (for either filter setting, including the
whitelisted-only filter) shows it with `whitelisted = true` — no stale read. -/
theorem C8_whitelist_read_after_write (devs : List SnapDevice) (id nm ty : String)
    (hnodup : (devs.map SnapDevice.id).Nodup)
    (hmem : ∃ d ∈ devs, d.id = id) :
    (∀ d' ∈ addToWhitelistSuccess devs id nm ty, d'.id = id → d'.whitelisted = true) ∧
    (∃ d' ∈ addToWhitelistSuccess devs id nm ty, d'.id = id ∧ d'.whitelisted = true) ∧
    (∀ b : Bool, ∀ d' ∈ renderedList b (addToWhitelistSuccess devs id nm ty),
        d'.id = id → d'.whitelisted = true) ∧
    (∃ d' ∈ renderedList true (addToWhitelistSuccess devs id nm ty),
        d'.id = id ∧ d'.whitelisted = true) := by
  have hfid : ∀ d : SnapDevice,
      (({ d with whitelisted := true, name := nm, type := ty } : SnapDevice)).id = d.id :=
    fun _ => rfl
  have h1 : ∀ d' ∈ addToWhitelistSuccess devs id nm ty,
      d'.id = id → d'.whitelisted = true := by
    intro d' hd' hid'
    obtain ⟨d, _, _, rfl⟩ :=
      restampFirst_stamped devs id _ hnodup d' hd' hid'
    rfl
  have h2 : ∃ d' ∈ addToWhitelistSuccess devs id nm ty,
      d'.id = id ∧ d'.whitelisted = true := by
    obtain ⟨d, hd, hdi, hmem'⟩ := restampFirst_mem_image devs id
      (fun d => { d with whitelisted := true, name := nm, type := ty }) hmem
    exact ⟨_, hmem', by simpa using hdi, rfl⟩
  refine ⟨h1, h2, ?_, ?_⟩
  · intro b d' hd' hid'
    refine h1 d' ?_ hid'
    rcases b with _ | _
    · simpa [renderedList] using hd'
    · have h := hd'
      simp [renderedList] at h
      exact h.1
  · obtain ⟨d', hd', hdi, hdw⟩ := h2
    refine ⟨d', ?_, hdi, hdw⟩
    simp [renderedList]
    exact ⟨hd', hdw⟩

/-- Concrete instantiation of `C8_whitelist_read_after_write`. -/
theorem C8_whitelist_read_after_write_witness :
    ∃ d' ∈ renderedList true (addToWhitelistSuccess [devA] "a" "nm" "ty"),
      d'.id = "a" ∧ d'.whitelisted = true :=
  (C8_whitelist_read_after_write [devA] "a" "nm" "ty" (by decide)
    ⟨devA, by decide, by decide⟩).2.2.2

/-! ### C9: ordering of the rendered device list -/

/-- C9 counterexample: with two active devices of powers 0 dB and -50 dB, the
comparator's `device.power || -100` coerces the 0 to -100 (0 is falsy in JS),
so the rendered list puts the -50 dB device before the 0 dB one — not in
non-increasing power with only absent powers read as -100. -/
theorem C9_counterexample :
    decide (claimOrdered (renderedList false [devP0, devPneg])) = false := by
  decide

/-- C9 amended: the rendered list is the (possibly whitelist-filtered) input,
reordered so that all active devices precede all inactive ones and, within each
activity group, by non-increasing `device.power || -100` — where the JS `||`
replaces a power that is absent OR exactly 0 by -100; the stored records
themselves (in particular their `power` fields) are unchanged. -/
theorem C9_amended_sort (b : Bool) (devs : List SnapDevice) :
    (renderedList b devs).Pairwise (fun x y =>
        (x.isActive = true ∧ y.isActive = false) ∨
        (x.isActive = y.isActive ∧ effPower y ≤ effPower x)) ∧
    ∀ d ∈ renderedList b devs, d ∈ devs := by
  constructor
  · have hs := List.sorted_insertionSort deviceBefore
      (if b then devs.filter (fun d => d.whitelisted) else devs)
    refine List.Pairwise.imp ?_ hs
    intro x y hxy
    unfold deviceBefore deviceLE at hxy
    cases hx : x.isActive <;> cases hy : y.isActive <;> simp_all
  · intro d hd
    rcases b with _ | _
    · simpa [renderedList, List.mem_insertionSort] using hd
    · have h := hd
      simp [renderedList, List.mem_insertionSort] at h
      exact h.1

/-- Concrete instantiation of `C9_amended_sort`. -/
theorem C9_amended_sort_witness : devPneg ∈ [devP0, devPneg] :=
  (C9_amended_sort false [devP0, devPneg]).2 devPneg (by decide)

/-! ### Geometry lemmas for the haversine distance -/

theorem le_arcsin_of_nonneg {x : ℝ} (h0 : 0 ≤ x) (h1 : x ≤ 1) : x ≤ Real.arcsin x := by
  have ha : 0 ≤ Real.arcsin x := Real.arcsin_nonneg.mpr h0
  calc x = Real.sin (Real.arcsin x) := (Real.sin_arcsin (by linarith) h1).symm
    _ ≤ Real.arcsin x := Real.sin_le ha

/-- The distance from a point to itself is zero (all haversine terms vanish). -/
theorem leafletDistance_self (p : RLatLng) : leafletDistance p p = 0 := by
  unfold leafletDistance
  simp

/-- A device at (0.001, 0.001) is about 157 m from (0, 0), within 500 m. -/
theorem leafletDistance_inside_500 :
    leafletDistance ⟨0, 0⟩ ⟨0.001, 0.001⟩ ≤ 500 := by
  have hπ3 : (3.14 : ℝ) < Real.pi := Real.pi_gt_d2
  have hπ4 : Real.pi < 3.15 := Real.pi_lt_d2
  unfold leafletDistance degRad earthRadius
  simp only
  set h : ℝ := ((0.001 : ℝ) - 0) * (Real.pi / 180) / 2 with hh
  have hhpos : 0 < h := by rw [hh]; positivity
  have hhub : h ≤ 3.15 / 360000 := by rw [hh]; nlinarith
  set c : ℝ := Real.cos (0 * (Real.pi / 180)) * Real.cos (0.001 * (Real.pi / 180)) with hc
  have hcos1 : (0:ℝ) ≤ Real.cos (0 * (Real.pi / 180)) :=
    Real.cos_nonneg_of_mem_Icc ⟨by nlinarith, by nlinarith⟩
  have hcos2 : (0:ℝ) ≤ Real.cos (0.001 * (Real.pi / 180)) :=
    Real.cos_nonneg_of_mem_Icc ⟨by nlinarith, by nlinarith⟩
  have hc1 : c ≤ 1 := by
    rw [hc]
    calc Real.cos (0 * (Real.pi / 180)) * Real.cos (0.001 * (Real.pi / 180))
        ≤ 1 * 1 :=
          mul_le_mul (Real.cos_le_one _) (Real.cos_le_one _) hcos2 (by norm_num)
      _ = 1 := by ring
  have hcnonneg : 0 ≤ c := by rw [hc]; exact mul_nonneg hcos1 hcos2
  have hsin_nonneg : 0 ≤ Real.sin h :=
    Real.sin_nonneg_of_nonneg_of_le_pi (le_of_lt hhpos) (by nlinarith)
  have hsinle : Real.sin h ≤ h := Real.sin_le (le_of_lt hhpos)
  set a : ℝ := Real.sin h * Real.sin h + c * Real.sin h * Real.sin h with haa
  have ha_ub : a ≤ ((1:ℝ)/50000)^2 := by
    rw [haa]; nlinarith [sq_nonneg (Real.sin h)]
  have hsqrt_ub : Real.sqrt a ≤ 1/50000 := by
    calc Real.sqrt a ≤ Real.sqrt (((1:ℝ)/50000)^2) := Real.sqrt_le_sqrt ha_ub
      _ = 1/50000 := Real.sqrt_sq (by norm_num)
  have hsqrt01 : Real.sqrt a ∈ Set.Icc (-1 : ℝ) 1 := by
    constructor
    · linarith [Real.sqrt_nonneg a]
    · linarith
  set t : ℝ := (1:ℝ)/25484 with ht
  have htmem : t ∈ Set.Icc (-(Real.pi/2)) (Real.pi/2) := by
    constructor <;> rw [ht] <;> nlinarith
  have hsint : (1:ℝ)/50000 ≤ Real.sin t := by
    have := Real.sin_gt_sub_cube (x := t) (by rw [ht]; norm_num) (by rw [ht]; norm_num)
    rw [ht] at this ⊢
    nlinarith
  have harcsin : Real.arcsin (Real.sqrt a) ≤ t := by
    rw [Real.arcsin_le_iff_le_sin hsqrt01 htmem]
    linarith
  calc 2 * 6371000 * Real.arcsin (Real.sqrt a) ≤ 2 * 6371000 * t := by nlinarith
    _ = 500 := by rw [ht]; norm_num

/-- A device at (0.01, 0.01) is about 1570 m from (0, 0), beyond 500 m. -/
theorem leafletDistance_outside_500 :
    500 < leafletDistance ⟨0, 0⟩ ⟨0.01, 0.01⟩ := by
  have hπ3 : (3.14 : ℝ) < Real.pi := Real.pi_gt_d2
  have hπ4 : Real.pi < 3.15 := Real.pi_lt_d2
  unfold leafletDistance degRad earthRadius
  simp only
  set H : ℝ := ((0.01 : ℝ) - 0) * (Real.pi / 180) / 2 with hH
  have hHpos : 0 < H := by rw [hH]; positivity
  have hHub : H ≤ 3.15 / 36000 := by rw [hH]; nlinarith
  have hHlb : 3.14 / 36000 ≤ H := by rw [hH]; nlinarith
  set c : ℝ := Real.cos (0 * (Real.pi / 180)) * Real.cos (0.01 * (Real.pi / 180)) with hc
  have hcos1 : (0:ℝ) ≤ Real.cos (0 * (Real.pi / 180)) :=
    Real.cos_nonneg_of_mem_Icc ⟨by nlinarith, by nlinarith⟩
  have hcos2 : (0:ℝ) ≤ Real.cos (0.01 * (Real.pi / 180)) :=
    Real.cos_nonneg_of_mem_Icc ⟨by nlinarith, by nlinarith⟩
  have hc1 : c ≤ 1 := by
    rw [hc]
    calc Real.cos (0 * (Real.pi / 180)) * Real.cos (0.01 * (Real.pi / 180))
        ≤ 1 * 1 :=
          mul_le_mul (Real.cos_le_one _) (Real.cos_le_one _) hcos2 (by norm_num)
      _ = 1 := by ring
  have hcnonneg : 0 ≤ c := by rw [hc]; exact mul_nonneg hcos1 hcos2
  have hsin_nonneg : 0 ≤ Real.sin H :=
    Real.sin_nonneg_of_nonneg_of_le_pi (le_of_lt hHpos) (by nlinarith)
  have hsinle : Real.sin H ≤ H := Real.sin_le (le_of_lt hHpos)
  have hsinlb : H - H^3/4 < Real.sin H := Real.sin_gt_sub_cube hHpos (by nlinarith)
  set a : ℝ := Real.sin H * Real.sin H + c * Real.sin H * Real.sin H with haa
  have ha_lb : Real.sin H * Real.sin H ≤ a := by
    rw [haa]; nlinarith [sq_nonneg (Real.sin H)]
  have ha_ub : a ≤ 1 := by rw [haa]; nlinarith
  have hsqrt_lb : Real.sin H ≤ Real.sqrt a := by
    calc Real.sin H = Real.sqrt (Real.sin H * Real.sin H) :=
          (Real.sqrt_mul_self hsin_nonneg).symm
      _ ≤ Real.sqrt a := Real.sqrt_le_sqrt ha_lb
  have hsqrt_ub : Real.sqrt a ≤ 1 := by
    rw [show (1:ℝ) = Real.sqrt 1 by simp]
    exact Real.sqrt_le_sqrt ha_ub
  have harc : Real.sqrt a ≤ Real.arcsin (Real.sqrt a) :=
    le_arcsin_of_nonneg (Real.sqrt_nonneg a) hsqrt_ub
  have hcube : H^3 ≤ (3.15/36000)^3 := pow_le_pow_left₀ (le_of_lt hHpos) hHub 3
  have hlow : (3.14:ℝ)/36000 - (3.15/36000)^3/4 ≤ Real.arcsin (Real.sqrt a) := by
    linarith
  nlinarith

/-- The second-to-third station fix of the C6 scenario travels about 1100 m,
more than the 100 m re-center threshold. -/
theorem leafletDistance_third_fix :
    100 < leafletDistance ⟨0, 0.0001⟩ ⟨0, 0.01⟩ := by
  have hπ3 : (3.14 : ℝ) < Real.pi := Real.pi_gt_d2
  have hπ4 : Real.pi < 3.15 := Real.pi_lt_d2
  unfold leafletDistance degRad earthRadius
  simp only [sub_self, zero_mul, Real.sin_zero, Real.cos_zero, zero_div,
    mul_zero, zero_add, one_mul, mul_one]
  set u : ℝ := ((0.01 : ℝ) - 0.0001) * (Real.pi / 180) / 2 with hu
  have hupos : 0 < u := by rw [hu]; positivity
  have huub : u ≤ Real.pi / 2 := by rw [hu]; nlinarith
  have hsin_nonneg : 0 ≤ Real.sin u :=
    Real.sin_nonneg_of_nonneg_of_le_pi (le_of_lt hupos) (by nlinarith)
  have hsqrt : Real.sqrt (Real.sin u * Real.sin u) = Real.sin u :=
    Real.sqrt_mul_self hsin_nonneg
  rw [hsqrt, Real.arcsin_sin (by nlinarith) huub]
  rw [hu]
  nlinarith

/-! ### C3: geofence containment -/

/-- C3: with an enabled zone, checkDevicesAgainstGeofence re-evaluates every
device, setting `insideGeofence` of each located device to exactly
"great-circle distance to the zone center ≤ zone radius"; and for the claimed
scenario with a 500 m zone at (0,0), a device at (0.001, 0.001) evaluates
inside while a device at (0.01, 0.01) evaluates outside. -/
theorem C3_geofence_containment :
    (∀ (zone : GeofenceZone) (d : GeoDevice) (loc : RLatLng),
        d.location = some loc →
        (checkDevice zone d).insideGeofence =
          some (leafletDistance loc zone.center ≤ zone.radius)) ∧
    (∀ (zone : GeofenceZone) (devs : List GeoDevice),
        checkDevicesAgainstGeofence (some zone) true devs = devs.map (checkDevice zone)) ∧
    (leafletDistance ⟨0, 0⟩ ⟨0.001, 0.001⟩ ≤ 500) ∧
    (500 < leafletDistance ⟨0, 0⟩ ⟨0.01, 0.01⟩) := by
  refine ⟨?_, ?_, leafletDistance_inside_500, leafletDistance_outside_500⟩
  · intro zone d loc hloc
    unfold checkDevice
    rw [hloc]
  · intro zone devs
    rfl

/-- Concrete instantiation of `C3_geofence_containment`. -/
theorem C3_geofence_containment_witness :
    (checkDevice ⟨⟨0, 0⟩, 500⟩ ⟨"x", some ⟨0.001, 0.001⟩, none⟩).insideGeofence =
      some (leafletDistance ⟨0.001, 0.001⟩ ⟨0, 0⟩ ≤ 500) :=
  C3_geofence_containment.1 ⟨⟨0, 0⟩, 500⟩ ⟨"x", some ⟨0.001, 0.001⟩, none⟩
    ⟨0.001, 0.001⟩ rfl

/-! ### C4: disabled zone leaves stale flags -/

/-- C4 counterexample: a device whose `insideGeofence` was set keeps the stale
value after the zone is disabled by toggleGeofence — the next evaluation pass
returns early and clears nothing. -/
theorem C4_counterexample :
    (toggleGeofence ⟨some ⟨⟨0, 0⟩, 500⟩, true,
        [⟨"a", some ⟨0, 0⟩, some True⟩]⟩).enabled = false ∧
    (toggleGeofence ⟨some ⟨⟨0, 0⟩, 500⟩, true,
        [⟨"a", some ⟨0, 0⟩, some True⟩]⟩).devices =
      [⟨"a", some ⟨0, 0⟩, some True⟩] := by
  exact ⟨rfl, rfl⟩

/-- C4 amended: whenever the zone is unset or disabled, the evaluation pass
performs no update at all — every device, in particular one whose
`insideGeofence` was previously set, keeps its old value (the field is left
stale, not cleared); disabling an enabled geofence via toggleGeofence
likewise leaves every record untouched. -/
theorem C4_amended_stale_flags (circle : Option GeofenceZone) (enabled : Bool)
    (devs : List GeoDevice) (h : circle = none ∨ enabled = false) :
    checkDevicesAgainstGeofence circle enabled devs = devs ∧
    ∀ st : GeoState, st.enabled = true → (toggleGeofence st).devices = st.devices := by
  constructor
  · rcases h with rfl | rfl
    · rfl
    · cases circle <;> rfl
  · intro st hst
    rcases st with ⟨circle', enabled', devices'⟩
    simp only at hst
    subst hst
    cases circle' <;> rfl

/-- Concrete instantiation of `C4_amended_stale_flags`. -/
theorem C4_amended_stale_flags_witness :
    checkDevicesAgainstGeofence (some ⟨⟨0, 0⟩, 500⟩) false
      [⟨"a", some ⟨0, 0⟩, some True⟩] = [⟨"a", some ⟨0, 0⟩, some True⟩] :=
  (C4_amended_stale_flags (some ⟨⟨0, 0⟩, 500⟩) false
    [⟨"a", some ⟨0, 0⟩, some True⟩] (Or.inr rfl)).1

/-! ### C6: station re-center flag -/

/-- C6: the handler moves the user marker to the new fix before measuring, so
the measured distance is from the new fix to itself (zero) and, once the map is
initialized, the re-center condition is always false — even for the third fix
of the claimed scenario, which lies about 1100 m (far over the 100 m
threshold) from the previously accepted fix. -/
theorem C6_recenter_never_fires :
    (∀ (p fix : RLatLng), (stationUpdate ⟨true, some p⟩ fix).2 = False) ∧
    100 < leafletDistance ⟨0, 0.0001⟩ ⟨0, 0.01⟩ := by
  refine ⟨?_, leafletDistance_third_fix⟩
  intro p fix
  apply eq_false
  intro hcond
  rcases hcond with hmap | hdist
  · cases hmap
  · rw [leafletDistance_self] at hdist
    exact absurd hdist (by norm_num)

/-! ### C7: geofence evaluation of a device without location -/

/-- C7: the per-device body of checkDevicesAgainstGeofence leaves a
location-less device untouched, but the geofence branch of processDeviceData
dereferences `device.location` without a guard, so with a zone set it raises a
TypeError on such a device instead of completing and leaving `insideGeofence`
unset. -/
theorem C7_pd_geofence_throws :
    pdGeofenceStep (some ⟨⟨0, 0⟩, 500⟩) ⟨"x", none, none⟩ =
      Except.error "TypeError: device.location is undefined" ∧
    checkDevice ⟨⟨0, 0⟩, 500⟩ ⟨"x", none, none⟩ = ⟨"x", none, none⟩ ∧
    pdGeofenceStep none ⟨"x", none, none⟩ = Except.ok ⟨"x", none, none⟩ := by
  exact ⟨rfl, rfl, rfl⟩

end RFMon
